import Mathlib

/-!
Shallow embedding of the core request/response pipeline of the `newsapi-rs`
crate: the error classifier (`src/client.rs`), the retry policy
(`src/retry.rs`), the request builders (`src/model.rs`) and the query
encoders (`src/client.rs`), together with theorems checking the
specification's statements about them.

Machine integers (`i32`, `u64`, `usize`) are modelled as `Int`/`Nat`, with an
explicit `% 2 ^ 64` where the Rust code casts to `u64`.  `std::time::Duration`
is modelled by its total number of nanoseconds.  External collaborators
(serde_json parsing, the reqwest HTTP transport, chrono date rendering) are
modelled as inputs: the classifier receives the outcome of the serde parse,
the client attempt receives the transport as a function, and a `chrono`
timestamp is abstracted by its RFC-3339 rendering.
-/

namespace NewsapiRs

/-- Error taxonomy, from `src/error.rs` (`ApiClientErrorCode`). -/
inductive ApiClientErrorCode where
  | ApiKeyDisabled
  | ApiKeyExhausted
  | ApiKeyInvalid
  | ApiKeyMissing
  | ParameterInvalid
  | ParametersMissing
  | RateLimited
  | SourcesTooMany
  | SourceDoesNotExist
  | UnexpectedError
  | Unknown
deriving DecidableEq

/-- Classified error payload, from `src/error.rs` (`ApiClientErrorResponse`). -/
structure ApiClientErrorResponse where
  status : String
  code : ApiClientErrorCode
  message : String
deriving DecidableEq

/-- Top-level error type, from `src/error.rs` (`ApiClientError`).  The
`reqwest` error payloads carried by `Http` and `InvalidHeaderValue` are
external; they are abstracted by their message strings. -/
inductive ApiClientError where
  | Http (msg : String)
  | InvalidRequest (msg : String)
  | InvalidResponse (response : ApiClientErrorResponse)
  | InvalidHeaderValue (msg : String)
deriving DecidableEq

/-- Wire shape of an API error body, from `src/client.rs`
(`NewsApiErrorResponse`): serde deserializes `{status, code?, message?}`. -/
structure NewsApiErrorResponse where
  status : String
  code : Option String
  message : Option String
deriving DecidableEq

/-- Substring test on character lists: Rust `str::contains(&str)`. -/
def charsContainSub (needle : List Char) : List Char → Bool
  | [] => needle.isEmpty
  | c :: rest => List.isPrefixOf needle (c :: rest) || charsContainSub needle rest

/-- Rust `str::contains`: does `hay` contain `pat` as a substring? -/
def strContainsSub (hay pat : String) : Bool :=
  charsContainSub pat.data hay.data

/-- `NewsApiClient::parse_error_response_internal` (src/client.rs 466-517).
The serde_json parse of the body is an external library call; its outcome is
passed in as `parsed` (`none` when `serde_json::from_str` fails).  The Rust
`match` on `error_response.code.as_deref()` against nine string literals is
an equality chain, written here as nested ifs; the `_` arm (status-code
fallback) covers both `None` and unrecognized codes. -/
def parse_error_response_internal (parsed : Option NewsApiErrorResponse)
    (response_text : String) (status_code : Nat) : ApiClientError :=
  match parsed with
  | some error_response =>
      let error_code :=
        match error_response.code with
        | some c =>
            if c = "apiKeyDisabled" then ApiClientErrorCode.ApiKeyDisabled
            else if c = "apiKeyExhausted" then ApiClientErrorCode.ApiKeyExhausted
            else if c = "apiKeyInvalid" then ApiClientErrorCode.ApiKeyInvalid
            else if c = "apiKeyMissing" then ApiClientErrorCode.ApiKeyMissing
            else if c = "parameterInvalid" then ApiClientErrorCode.ParameterInvalid
            else if c = "parametersMissing" then ApiClientErrorCode.ParametersMissing
            else if c = "rateLimited" then ApiClientErrorCode.RateLimited
            else if c = "sourcesTooMany" then ApiClientErrorCode.SourcesTooMany
            else if c = "sourceDoesNotExist" then ApiClientErrorCode.SourceDoesNotExist
            else if status_code = 429 then ApiClientErrorCode.RateLimited
            else ApiClientErrorCode.UnexpectedError
        | none =>
            if status_code = 429 then ApiClientErrorCode.RateLimited
            else ApiClientErrorCode.UnexpectedError
      ApiClientError.InvalidResponse
        { status := error_response.status
          code := error_code
          message := error_response.message.getD "Unknown error" }
  | none =>
      let error_code :=
        if status_code = 429 then ApiClientErrorCode.RateLimited
        else ApiClientErrorCode.UnexpectedError
      ApiClientError.InvalidResponse
        { status := "error"
          code := error_code
          message :=
            if strContainsSub response_text "too many requests"
                || strContainsSub response_text "rate limit" then
              "You have made too many requests. Rate limit exceeded."
            else
              "Failed to parse error response" }

/-- The nine known wire strings and their taxonomy values, as enumerated by
the spec (section 4.3). -/
def knownWireCodes : List (String × ApiClientErrorCode) :=
  [("apiKeyDisabled", ApiClientErrorCode.ApiKeyDisabled),
   ("apiKeyExhausted", ApiClientErrorCode.ApiKeyExhausted),
   ("apiKeyInvalid", ApiClientErrorCode.ApiKeyInvalid),
   ("apiKeyMissing", ApiClientErrorCode.ApiKeyMissing),
   ("parameterInvalid", ApiClientErrorCode.ParameterInvalid),
   ("parametersMissing", ApiClientErrorCode.ParametersMissing),
   ("rateLimited", ApiClientErrorCode.RateLimited),
   ("sourcesTooMany", ApiClientErrorCode.SourcesTooMany),
   ("sourceDoesNotExist", ApiClientErrorCode.SourceDoesNotExist)]

/-- The spec's status-code fallback rule: `RateLimited` when the numeric
status code is 429, `UnexpectedError` otherwise. -/
def fallbackCode (status_code : Nat) : ApiClientErrorCode :=
  if status_code = 429 then ApiClientErrorCode.RateLimited
  else ApiClientErrorCode.UnexpectedError

/-- Classifier as described by the spec's words (section 4.3): look the parsed
`code` up in the table of nine known wire strings, fall back to the
status-code rule when it is absent or unrecognized, and on parse failure
apply the status-code rule and substring-scan the raw body for a clearer
message. -/
def classifySpec (parsed : Option NewsApiErrorResponse)
    (response_text : String) (status_code : Nat) : ApiClientError :=
  match parsed with
  | some er =>
      let code :=
        match er.code with
        | some c => (knownWireCodes.lookup c).getD (fallbackCode status_code)
        | none => fallbackCode status_code
      ApiClientError.InvalidResponse
        { status := er.status, code := code, message := er.message.getD "Unknown error" }
  | none =>
      ApiClientError.InvalidResponse
        { status := "error"
          code := fallbackCode status_code
          message :=
            if strContainsSub response_text "too many requests"
                || strContainsSub response_text "rate limit" then
              "You have made too many requests. Rate limit exceeded."
            else
              "Failed to parse error response" }

theorem parse_error_eq_classifySpec (parsed : Option NewsApiErrorResponse)
    (body : String) (sc : Nat) :
    parse_error_response_internal parsed body sc = classifySpec parsed body sc := by
  cases parsed with
  | none => rfl
  | some er =>
      obtain ⟨st, oc, om⟩ := er
      cases oc with
      | none => simp [parse_error_response_internal, classifySpec, fallbackCode]
      | some c =>
          by_cases h1 : c = "apiKeyDisabled"
          · subst h1; rfl
          by_cases h2 : c = "apiKeyExhausted"
          · subst h2; rfl
          by_cases h3 : c = "apiKeyInvalid"
          · subst h3; rfl
          by_cases h4 : c = "apiKeyMissing"
          · subst h4; rfl
          by_cases h5 : c = "parameterInvalid"
          · subst h5; rfl
          by_cases h6 : c = "parametersMissing"
          · subst h6; rfl
          by_cases h7 : c = "rateLimited"
          · subst h7; rfl
          by_cases h8 : c = "sourcesTooMany"
          · subst h8; rfl
          by_cases h9 : c = "sourceDoesNotExist"
          · subst h9; rfl
          have hb1 : (c == "apiKeyDisabled") = false := beq_eq_false_iff_ne.mpr h1
          have hb2 : (c == "apiKeyExhausted") = false := beq_eq_false_iff_ne.mpr h2
          have hb3 : (c == "apiKeyInvalid") = false := beq_eq_false_iff_ne.mpr h3
          have hb4 : (c == "apiKeyMissing") = false := beq_eq_false_iff_ne.mpr h4
          have hb5 : (c == "parameterInvalid") = false := beq_eq_false_iff_ne.mpr h5
          have hb6 : (c == "parametersMissing") = false := beq_eq_false_iff_ne.mpr h6
          have hb7 : (c == "rateLimited") = false := beq_eq_false_iff_ne.mpr h7
          have hb8 : (c == "sourcesTooMany") = false := beq_eq_false_iff_ne.mpr h8
          have hb9 : (c == "sourceDoesNotExist") = false := beq_eq_false_iff_ne.mpr h9
          simp [parse_error_response_internal, classifySpec, knownWireCodes, List.lookup,
            fallbackCode, h1, h2, h3, h4, h5, h6, h7, h8, h9,
            hb1, hb2, hb3, hb4, hb5, hb6, hb7, hb8, hb9]

/-- C1: for every non-2xx response, the classifier maps a parsed body with one
of the nine known wire codes 1:1 to its taxonomy value with the body's
message, falls back to RateLimited (status 429) / UnexpectedError otherwise
when the code is absent or unrecognized, and applies the same status-code
rule with a substring-scanned message when the body does not parse.  The
serde parse of the claim's example body
(status "error", code "apiKeyInvalid", message "m") is the first concrete
conjunct; the last two are the unparseable-body examples at 429 and 500. -/
theorem c1_error_classifier_taxonomy :
    (∀ (parsed : Option NewsApiErrorResponse) (body : String) (sc : Nat),
        parse_error_response_internal parsed body sc = classifySpec parsed body sc) ∧
    parse_error_response_internal (some ⟨"error", some "apiKeyInvalid", some "m"⟩) "" 400
      = ApiClientError.InvalidResponse ⟨"error", ApiClientErrorCode.ApiKeyInvalid, "m"⟩ ∧
    parse_error_response_internal none "not json" 429
      = ApiClientError.InvalidResponse
          ⟨"error", ApiClientErrorCode.RateLimited, "Failed to parse error response"⟩ ∧
    parse_error_response_internal none "not json" 500
      = ApiClientError.InvalidResponse
          ⟨"error", ApiClientErrorCode.UnexpectedError, "Failed to parse error response"⟩ :=
  ⟨parse_error_eq_classifySpec, by decide, by decide, by decide⟩

/-- C10: when the body parses but its message field is absent, the classified
message is exactly "Unknown error"; when the body does not parse, the
classified status is exactly "error" and the message is the rate-limit text
exactly when the raw body contains "too many requests" or "rate limit", and
"Failed to parse error response" otherwise. -/
theorem c10_classifier_fallback_messages :
    (∀ (st : String) (oc : Option String) (body : String) (sc : Nat),
        ∃ code, parse_error_response_internal (some ⟨st, oc, none⟩) body sc
          = ApiClientError.InvalidResponse ⟨st, code, "Unknown error"⟩) ∧
    (∀ (body : String) (sc : Nat),
        parse_error_response_internal none body sc
          = ApiClientError.InvalidResponse
              ⟨"error", fallbackCode sc,
                if strContainsSub body "too many requests"
                    || strContainsSub body "rate limit" then
                  "You have made too many requests. Rate limit exceeded."
                else "Failed to parse error response"⟩) := by
  constructor
  · intro st oc body sc
    cases oc <;> exact ⟨_, rfl⟩
  · intro body sc
    rfl

/-! ## Retry policy (src/retry.rs) -/

/-- Model of `std::time::Duration` by its total nanosecond count. -/
structure Duration where
  nanos : Nat
deriving DecidableEq

/-- `2 ^ 64`, the modulus of Rust `u64` arithmetic. -/
def U64 : Nat := 2 ^ 64

/-- `Duration::from_secs`. -/
def Duration.fromSecs (s : Nat) : Duration := ⟨s * 1000000000⟩

/-- `Duration::from_millis` (argument is a `u64`, so always representable). -/
def Duration.fromMillis (m : Nat) : Duration := ⟨m * 1000000⟩

/-- `Duration::as_millis`: whole milliseconds, truncating any sub-millisecond
part (the `u128` result cannot overflow). -/
def Duration.asMillis (d : Duration) : Nat := d.nanos / 1000000

/-- `RetryStrategy` from src/retry.rs. -/
inductive RetryStrategy where
  | None
  | Constant (d : Duration)
  | Linear (d : Duration)
  | Exponential (d : Duration)
deriving DecidableEq

/-- The delay computed inside the retry loop (src/retry.rs 31-40) before the
retry with index `attempt` (0 for the first retry).  The Rust code casts
`d.as_millis()` to `u64`, multiplies in `u64` (wrapping, modelled by
`% U64`), casts `attempt` to `u64` resp. `u32`, and rebuilds the duration
with `Duration::from_millis`. -/
def retry_delay (strategy : RetryStrategy) (attempt : Nat) : Duration :=
  match strategy with
  | RetryStrategy.None => Duration.fromSecs 0
  | RetryStrategy.Constant d => d
  | RetryStrategy.Linear d =>
      Duration.fromMillis ((d.asMillis % U64) * ((attempt + 1) % U64) % U64)
  | RetryStrategy.Exponential d =>
      Duration.fromMillis ((d.asMillis % U64) * (2 ^ (attempt % 2 ^ 32) % U64) % U64)

/-- The retry loop of `retry` (src/retry.rs 24-48) for strategies other than
`None`, instrumented for the side effects the spec talks about: the result is
returned together with the number of times `operation` was invoked and the
list of delays slept between attempts.  The `k`-th invocation of the Rust
`FnMut` closure is modelled as `operation k`; `remaining` is
`max_retries - attempt`, so the Rust guard `attempt < max_retries` is
`remaining > 0`. -/
def retry_loop {E T : Type} (strategy : RetryStrategy) (operation : Nat → Except E T) :
    Nat → Nat → Except E T × Nat × List Duration
  | attempt, remaining =>
    match operation attempt with
    | Except.ok result => (Except.ok result, 1, [])
    | Except.error e =>
        match remaining with
        | 0 => (Except.error e, 1, [])
        | r + 1 =>
            let d := retry_delay strategy attempt
            let rest := retry_loop strategy operation (attempt + 1) r
            (rest.1, rest.2.1 + 1, d :: rest.2.2)

/-- `retry` (src/retry.rs 13-49), instrumented with the invocation count and
the slept delays.  `RetryStrategy::None` performs precisely one invocation
with no sleep; every other strategy enters the loop with `attempt = 0`. -/
def retry {E T : Type} (strategy : RetryStrategy) (max_retries : Nat)
    (operation : Nat → Except E T) : Except E T × Nat × List Duration :=
  match strategy with
  | RetryStrategy.None => (operation 0, 1, [])
  | _ => retry_loop strategy operation 0 max_retries

/-- `retry_blocking` (src/retry.rs 52-87): textually the same control flow as
`retry` with `std::thread::sleep` in place of `tokio::time::sleep`. -/
def retry_blocking {E T : Type} (strategy : RetryStrategy) (max_retries : Nat)
    (operation : Nat → Except E T) : Except E T × Nat × List Duration :=
  match strategy with
  | RetryStrategy.None => (operation 0, 1, [])
  | _ => retry_loop strategy operation 0 max_retries

theorem retry_loop_always_fails {E T : Type} (strategy : RetryStrategy) (err : Nat → E) :
    ∀ (remaining attempt : Nat),
      retry_loop (T := T) strategy (fun k => Except.error (err k)) attempt remaining
        = (Except.error (err (attempt + remaining)), remaining + 1,
            (List.range remaining).map (fun i => retry_delay strategy (attempt + i))) := by
  intro remaining
  induction remaining with
  | zero => intro attempt; simp [retry_loop]
  | succ r ih =>
      intro attempt
      rw [retry_loop]
      simp only [ih (attempt + 1), List.range_succ_eq_map, List.map_cons, List.map_map,
        Nat.add_zero]
      have h1 : attempt + 1 + r = attempt + (r + 1) := by omega
      rw [h1]
      have h2 : ((fun i => retry_delay strategy (attempt + i)) ∘ Nat.succ)
          = fun i => retry_delay strategy (attempt + 1 + i) := by
        funext i
        simp only [Function.comp_apply]
        have h3 : attempt + Nat.succ i = attempt + 1 + i := by omega
        rw [h3]
      rw [h2]

/-- C2: for every strategy other than `None` and every `max_retries`, an
operation failing on every invocation is invoked exactly `max_retries + 1`
times, and the error of the final invocation is returned unchanged; in
particular with `Constant` and `max_retries = 2` there are exactly 3
invocations. -/
theorem c2_retry_exhaustion (strategy : RetryStrategy) (h : strategy ≠ RetryStrategy.None)
    (max_retries : Nat) {E T : Type} (err : Nat → E) :
    (retry (T := T) strategy max_retries (fun k => Except.error (err k))).1
        = Except.error (err max_retries) ∧
    (retry (T := T) strategy max_retries (fun k => Except.error (err k))).2.1
        = max_retries + 1 := by
  have hloop := retry_loop_always_fails (T := T) strategy err max_retries 0
  cases strategy with
  | None => exact absurd rfl h
  | Constant d =>
      simp only [retry, hloop]
      exact ⟨by simp, trivial⟩
  | Linear d =>
      simp only [retry, hloop]
      exact ⟨by simp, trivial⟩
  | Exponential d =>
      simp only [retry, hloop]
      exact ⟨by simp, trivial⟩

/-- Witness for C2 at the spec's concrete example: strategy `Constant(1ms)`,
`max_retries = 2`, an operation that always fails: exactly 3 invocations and
the last error surfaced unchanged. -/
theorem c2_retry_exhaustion_witness :
    (retry (T := Nat) (RetryStrategy.Constant ⟨1000000⟩) 2
        (fun _ => Except.error "always fails")).1 = Except.error "always fails" ∧
    (retry (T := Nat) (RetryStrategy.Constant ⟨1000000⟩) 2
        (fun _ => Except.error "always fails")).2.1 = 3 :=
  c2_retry_exhaustion (RetryStrategy.Constant ⟨1000000⟩) (by decide) 2
    (fun _ => "always fails")

/-- C8: with strategy `None` the operation is invoked exactly once, there is
no delay, and its result — success or failure — is returned unchanged,
regardless of `max_retries`; likewise for `retry_blocking`. -/
theorem c8_retry_none_single_attempt {E T : Type} (max_retries : Nat)
    (operation : Nat → Except E T) :
    retry RetryStrategy.None max_retries operation = (operation 0, 1, []) ∧
    retry_blocking RetryStrategy.None max_retries operation = (operation 0, 1, []) :=
  ⟨rfl, rfl⟩

/-! ## Request models and builders (src/model.rs) -/

/-- `NewsCategory` (model.rs 34-44). -/
inductive NewsCategory where
  | Business | Entertainment | General | Health | Science | Sports | Technology
deriving DecidableEq

/-- strum `Display` for `NewsCategory` with `serialize_all = "lowercase"`. -/
def NewsCategory.display : NewsCategory → String
  | Business => "business"
  | Entertainment => "entertainment"
  | General => "general"
  | Health => "health"
  | Science => "science"
  | Sports => "sports"
  | Technology => "technology"

/-- `Country` (model.rs 46-103). -/
inductive Country where
  | AE | AR | AT | AU | BE | BG | BR | CA | CH | CN | CO | CU | CZ | DE
  | EG | FR | GB | GR | HK | HU | ID | IE | IL | IN | IT | JP | KR | LT
  | LV | MA | MX | MY | NG | NL | NO | NZ | PH | PL | PT | RO | RS | RU
  | SA | SE | SG | SI | SK | TH | TR | TW | UA | US | VE | ZA
deriving DecidableEq

/-- strum `Display` for `Country` with `serialize_all = "lowercase"`. -/
def Country.display : Country → String
  | AE => "ae" | AR => "ar" | AT => "at" | AU => "au" | BE => "be" | BG => "bg"
  | BR => "br" | CA => "ca" | CH => "ch" | CN => "cn" | CO => "co" | CU => "cu"
  | CZ => "cz" | DE => "de" | EG => "eg" | FR => "fr" | GB => "gb" | GR => "gr"
  | HK => "hk" | HU => "hu" | ID => "id" | IE => "ie" | IL => "il" | IN => "in"
  | IT => "it" | JP => "jp" | KR => "kr" | LT => "lt" | LV => "lv" | MA => "ma"
  | MX => "mx" | MY => "my" | NG => "ng" | NL => "nl" | NO => "no" | NZ => "nz"
  | PH => "ph" | PL => "pl" | PT => "pt" | RO => "ro" | RS => "rs" | RU => "ru"
  | SA => "sa" | SE => "se" | SG => "sg" | SI => "si" | SK => "sk" | TH => "th"
  | TR => "tr" | TW => "tw" | UA => "ua" | US => "us" | VE => "ve" | ZA => "za"

/-- `Language` (model.rs 105-122). -/
inductive Language where
  | AR | DE | EN | ES | FR | HE | IT | NL | NO | PT | RU | SV | UD | ZH
deriving DecidableEq

/-- strum `Display` for `Language` with `serialize_all = "lowercase"`. -/
def Language.display : Language → String
  | AR => "ar" | DE => "de" | EN => "en" | ES => "es" | FR => "fr" | HE => "he"
  | IT => "it" | NL => "nl" | NO => "no" | PT => "pt" | RU => "ru" | SV => "sv"
  | UD => "ud" | ZH => "zh"

/-- `SearchInOption` (model.rs 26-32). -/
inductive SearchInOption where
  | Title | Description | Content
deriving DecidableEq

/-- `ArticleSortBy` (model.rs 16-24). -/
inductive ArticleSortBy where
  | PublishedAt | Relevancy | Popularity
deriving DecidableEq

/-- strum `Display` for `ArticleSortBy` (explicit serialize strings). -/
def ArticleSortBy.display : ArticleSortBy → String
  | PublishedAt => "publishedAt"
  | Relevancy => "relevancy"
  | Popularity => "popularity"

/-- `chrono::DateTime<Utc>` is an external library type; it is abstracted by
its RFC-3339 rendering, the only way the client observes it. -/
structure DateTime where
  rfc3339 : String
deriving DecidableEq

/-- `DateTime::to_rfc3339` (external chrono call). -/
def DateTime.to_rfc3339 (t : DateTime) : String := t.rfc3339

/-- serde field default for `pageSize` (model.rs 8-10), used only when
deserializing a request from JSON. -/
def default_page_size : Int := 1

/-- serde field default for `page` (model.rs 12-14), used only when
deserializing a request from JSON. -/
def default_page : Int := 1

/-- `GetTopHeadlinesRequest` (model.rs 154-173).  `i32` fields as `Int`. -/
structure GetTopHeadlinesRequest where
  country : Option Country
  category : Option NewsCategory
  sources : Option String
  search_term : String
  page_size : Int
  page : Int
deriving DecidableEq

/-- `GetTopHeadlinesRequestBuilder` (model.rs 181-194). -/
structure GetTopHeadlinesRequestBuilder where
  country : Option Country
  category : Option NewsCategory
  sources : Option String
  search_term : String
  page_size : Int
  page : Int
deriving DecidableEq

/-- `GetTopHeadlinesRequestBuilder::new` = `Default::default()` (model.rs
196-199): Rust `#[derive(Default)]` field-wise defaults are `None` for the
options, the empty string, and `0` for the `i32` fields — the serde-only
`default_page_size`/`default_page` functions play no part here. -/
def GetTopHeadlinesRequestBuilder.new : GetTopHeadlinesRequestBuilder :=
  { country := none, category := none, sources := none,
    search_term := "", page_size := 0, page := 0 }

/-- Fluent setter (model.rs 201-204). -/
def GetTopHeadlinesRequestBuilder.setCountry (self : GetTopHeadlinesRequestBuilder)
    (country : Country) : GetTopHeadlinesRequestBuilder :=
  { self with country := some country }

/-- Fluent setter (model.rs 206-209). -/
def GetTopHeadlinesRequestBuilder.setCategory (self : GetTopHeadlinesRequestBuilder)
    (category : NewsCategory) : GetTopHeadlinesRequestBuilder :=
  { self with category := some category }

/-- Fluent setter (model.rs 211-214). -/
def GetTopHeadlinesRequestBuilder.setSources (self : GetTopHeadlinesRequestBuilder)
    (sources : String) : GetTopHeadlinesRequestBuilder :=
  { self with sources := some sources }

/-- `GetTopHeadlinesRequestBuilder::build` (model.rs 231-244). -/
def GetTopHeadlinesRequestBuilder.build (self : GetTopHeadlinesRequestBuilder) :
    Except String GetTopHeadlinesRequest :=
  if self.sources.isSome && (self.country.isSome || self.category.isSome) then
    Except.error "Cannot specify sources with country or category"
  else
    Except.ok
      { country := self.country, category := self.category, sources := self.sources,
        search_term := self.search_term, page_size := self.page_size, page := self.page }

/-- `GetEverythingRequest` (model.rs 257-290).  `sort_by` is a `String`
option in the request (the builder renders the enum). -/
structure GetEverythingRequest where
  search_term : String
  search_in : List SearchInOption
  sources : Option String
  domains : Option String
  exclude_domains : Option String
  start_date : Option DateTime
  end_date : Option DateTime
  language : Option Language
  sort_by : Option String
  page_size : Int
  page : Int
deriving DecidableEq

/-- `GetEverythingRequestBuilder` (model.rs 298-321). -/
structure GetEverythingRequestBuilder where
  search_term : String
  search_in : List SearchInOption
  sources : Option String
  domains : Option String
  exclude_domains : Option String
  start_date : Option DateTime
  end_date : Option DateTime
  language : Option Language
  sort_by : Option ArticleSortBy
  page_size : Int
  page : Int
deriving DecidableEq

/-- `GetEverythingRequestBuilder::new` = `Default::default()` (model.rs
323-326): `None` options, empty string, empty vector, `0` for the `i32`
fields. -/
def GetEverythingRequestBuilder.new : GetEverythingRequestBuilder :=
  { search_term := "", search_in := [], sources := none, domains := none,
    exclude_domains := none, start_date := none, end_date := none,
    language := none, sort_by := none, page_size := 0, page := 0 }

/-- `GetEverythingRequestBuilder::build` (model.rs 383-397): always succeeds;
the sort enum is rendered to its wire string. -/
def GetEverythingRequestBuilder.build (self : GetEverythingRequestBuilder) :
    GetEverythingRequest :=
  { search_term := self.search_term, search_in := self.search_in,
    sources := self.sources, domains := self.domains,
    exclude_domains := self.exclude_domains, start_date := self.start_date,
    end_date := self.end_date, language := self.language,
    sort_by := self.sort_by.map ArticleSortBy.display,
    page_size := self.page_size, page := self.page }

/-! ## Client validation and query encoding (src/client.rs) -/

/-- Endpoint path constant (src/constant.rs). -/
def TOP_HEADLINES_ENDPOINT : String := "/v2/top-headlines"

/-- Endpoint path constant (src/constant.rs). -/
def EVERYTHING_ENDPOINT : String := "/v2/everything"

/-- `top_headlines_validate_request` (client.rs 532-544): the only request
validation the client performs before a network attempt.  It checks the
sources/country/category conflict and nothing else; in particular the
`#[validate(range(...))]` attributes on the request structs are never
executed anywhere in the crate. -/
def top_headlines_validate_request (request : GetTopHeadlinesRequest) :
    Except ApiClientError Unit :=
  if request.sources.isSome && (request.country.isSome || request.category.isSome) then
    Except.error (ApiClientError.InvalidRequest
      "Cannot specify sources with country or category")
  else Except.ok ()

/-- `get_top_headlines_query_params` (client.rs 560-588), the sequence of
`query_params.push` calls written as accumulator updates. -/
def get_top_headlines_query_params (request : GetTopHeadlinesRequest) :
    List (String × String) :=
  let query_params : List (String × String) := []
  let query_params :=
    match request.country with
    | some country => query_params ++ [("country", country.display)]
    | none => query_params
  let query_params :=
    match request.category with
    | some category => query_params ++ [("category", category.display)]
    | none => query_params
  let query_params :=
    match request.sources with
    | some sources => query_params ++ [("sources", sources)]
    | none => query_params
  let query_params :=
    if !request.search_term.isEmpty then query_params ++ [("q", request.search_term)]
    else query_params
  let query_params :=
    if request.page_size > 1 then query_params ++ [("pageSize", toString request.page_size)]
    else query_params
  let query_params :=
    if request.page > 1 then query_params ++ [("page", toString request.page)]
    else query_params
  query_params

/-- Rust `str::to_lowercase`, modelled for ASCII (the only inputs it receives
here are two-letter ASCII language codes). -/
def asciiToLower (s : String) : String :=
  ⟨s.data.map fun c => if 65 ≤ c.toNat && c.toNat ≤ 90 then Char.ofNat (c.toNat + 32) else c⟩

/-- `get_everything_query_params` (client.rs 605-631). -/
def get_everything_query_params (request : GetEverythingRequest) :
    List (String × String) :=
  let query_params : List (String × String) := [("q", request.search_term)]
  let query_params :=
    match request.language with
    | some language => query_params ++ [("language", asciiToLower language.display)]
    | none => query_params
  let query_params :=
    match request.start_date with
    | some start_date => query_params ++ [("from", start_date.to_rfc3339)]
    | none => query_params
  let query_params :=
    match request.end_date with
    | some end_date => query_params ++ [("to", end_date.to_rfc3339)]
    | none => query_params
  let query_params :=
    if request.page_size > 0 then query_params ++ [("pageSize", toString request.page_size)]
    else query_params
  let query_params :=
    if request.page > 1 then query_params ++ [("page", toString request.page)]
    else query_params
  query_params

/-- A URL as the encoders observe it: a path and an ordered query-pair list
(`url::Url` is external; `set_path`, `query_pairs_mut().clear()` and
`append_pair` act on exactly these two components). -/
structure Url where
  path : String
  query : List (String × String)
deriving DecidableEq

/-- `get_endpoint_with_query_params_for_top_headlines` (client.rs 546-558):
set the path, clear the existing query pairs, then append each computed
pair in order. -/
def get_endpoint_with_query_params_for_top_headlines (url : Url)
    (request : GetTopHeadlinesRequest) : Url :=
  let url := { url with path := TOP_HEADLINES_ENDPOINT }
  let url := { url with query := [] }
  (get_top_headlines_query_params request).foldl
    (fun u kv => { u with query := u.query ++ [kv] }) url

/-- `get_endpoint_with_query_params_for_everything` (client.rs 590-603). -/
def get_endpoint_with_query_params_for_everything (url : Url)
    (request : GetEverythingRequest) : Url :=
  let url := { url with path := EVERYTHING_ENDPOINT }
  let url := { url with query := [] }
  (get_everything_query_params request).foldl
    (fun u kv => { u with query := u.query ++ [kv] }) url

/-- One attempt body of `get_top_headlines` (client.rs 375-411): validate the
request, encode the query, then hand over to the transport (the HTTP send
plus response decoding, external `reqwest`/serde, abstracted as a function
of the query pairs).  Header construction does not inspect the request and
is elided. -/
def get_top_headlines_attempt {ρ : Type} (request : GetTopHeadlinesRequest)
    (transport : List (String × String) → Except ApiClientError ρ) :
    Except ApiClientError ρ :=
  match top_headlines_validate_request request with
  | Except.error e => Except.error e
  | Except.ok _ => transport (get_top_headlines_query_params request)

/-- One attempt body of `get_everything` (client.rs 340-373): no request
validation at all; straight to query encoding and the transport. -/
def get_everything_attempt {ρ : Type} (request : GetEverythingRequest)
    (transport : List (String × String) → Except ApiClientError ρ) :
    Except ApiClientError ρ :=
  transport (get_everything_query_params request)

/-! ## Spec-side encoder description (spec section 4.2) -/

/-- One optional query pair, for the spec-side encoder description. -/
def optPair (key : String) : Option String → List (String × String)
  | some v => [(key, v)]
  | none => []

/-- Headlines emission rules as the spec words them: country?, category?,
sources?, q (only if non-empty), pageSize (only if greater than 1), page
(only if greater than 1), in that fixed order. -/
def headlinesParamsSpec (r : GetTopHeadlinesRequest) : List (String × String) :=
  optPair "country" (r.country.map Country.display)
    ++ optPair "category" (r.category.map NewsCategory.display)
    ++ optPair "sources" r.sources
    ++ (if r.search_term.isEmpty then [] else [("q", r.search_term)])
    ++ (if 1 < r.page_size then [("pageSize", toString r.page_size)] else [])
    ++ (if 1 < r.page then [("page", toString r.page)] else [])

/-- Everything emission rules as the spec words them: q (always, even when
empty), language? (lower-case wire form), from? (RFC-3339), to? (RFC-3339),
pageSize (only if greater than 0), page (only if greater than 1). -/
def everythingParamsSpec (r : GetEverythingRequest) : List (String × String) :=
  [("q", r.search_term)]
    ++ optPair "language" (r.language.map Language.display)
    ++ optPair "from" (r.start_date.map DateTime.to_rfc3339)
    ++ optPair "to" (r.end_date.map DateTime.to_rfc3339)
    ++ (if 0 < r.page_size then [("pageSize", toString r.page_size)] else [])
    ++ (if 1 < r.page then [("page", toString r.page)] else [])

theorem language_display_lower (l : Language) : asciiToLower l.display = l.display := by
  cases l <;> rfl

theorem headlines_params_eq_spec (r : GetTopHeadlinesRequest) :
    get_top_headlines_query_params r = headlinesParamsSpec r := by
  obtain ⟨oc, ocat, osrc, q, ps, pg⟩ := r
  cases hq : q.isEmpty <;> by_cases hps : (1 : Int) < ps <;>
    by_cases hpg : (1 : Int) < pg <;> cases oc <;> cases ocat <;> cases osrc <;>
      simp [get_top_headlines_query_params, headlinesParamsSpec, optPair, hq, hps, hpg]

theorem everything_params_eq_spec (r : GetEverythingRequest) :
    get_everything_query_params r = everythingParamsSpec r := by
  obtain ⟨q, si, os, od, oxd, osd, oed, ol, osb, ps, pg⟩ := r
  by_cases hps : (0 : Int) < ps <;> by_cases hpg : (1 : Int) < pg <;>
    cases ol <;> cases osd <;> cases oed <;>
      simp [get_everything_query_params, everythingParamsSpec, optPair,
        language_display_lower, hps, hpg]

/-- C6: the query encoders emit pairs in the fixed per-endpoint order with
the stated omission rules — Headlines: country?, category?, sources?, q only
if non-empty, pageSize only if greater than 1, page only if greater than 1;
Everything: q always, language? (lower-case wire form), from?/to? (RFC-3339
renderings), pageSize only if greater than 0, page only if greater than 1 —
and enum values serialize to their lower-case wire form (e.g. category
`Technology` to "technology"). -/
theorem c6_query_encoding_rules :
    (∀ r, get_top_headlines_query_params r = headlinesParamsSpec r) ∧
    (∀ r, get_everything_query_params r = everythingParamsSpec r) ∧
    (∀ l : Language, asciiToLower l.display = l.display) ∧
    NewsCategory.display NewsCategory.Technology = "technology" ∧
    Country.display Country.US = "us" :=
  ⟨headlines_params_eq_spec, everything_params_eq_spec, language_display_lower, rfl, rfl⟩

theorem foldl_append_query (l : List (String × String)) :
    ∀ u : Url, l.foldl (fun u kv => { u with query := u.query ++ [kv] }) u
      = { u with query := u.query ++ l } := by
  induction l with
  | nil => intro u; simp
  | cons kv rest ih =>
      intro u
      simp only [List.foldl_cons, ih, List.append_assoc, List.singleton_append]

theorem encode_top_headlines_eq (u : Url) (r : GetTopHeadlinesRequest) :
    get_endpoint_with_query_params_for_top_headlines u r
      = { path := TOP_HEADLINES_ENDPOINT, query := get_top_headlines_query_params r } := by
  simp [get_endpoint_with_query_params_for_top_headlines, foldl_append_query]

theorem encode_everything_eq (u : Url) (r : GetEverythingRequest) :
    get_endpoint_with_query_params_for_everything u r
      = { path := EVERYTHING_ENDPOINT, query := get_everything_query_params r } := by
  simp [get_endpoint_with_query_params_for_everything, foldl_append_query]

/-- C9: query encoding is a pure function of the request — the emitted
query-pair sequence depends only on the request (the prior URL state is
cleared), so encoding twice is the same as encoding once (idempotence on the
URL), and the emitted pairs are exactly the encoder's pair list. -/
theorem c9_encoding_pure_idempotent :
    (∀ (u : Url) (r : GetTopHeadlinesRequest),
        get_endpoint_with_query_params_for_top_headlines
            (get_endpoint_with_query_params_for_top_headlines u r) r
          = get_endpoint_with_query_params_for_top_headlines u r ∧
        (get_endpoint_with_query_params_for_top_headlines u r).query
          = get_top_headlines_query_params r) ∧
    (∀ (u : Url) (r : GetEverythingRequest),
        get_endpoint_with_query_params_for_everything
            (get_endpoint_with_query_params_for_everything u r) r
          = get_endpoint_with_query_params_for_everything u r ∧
        (get_endpoint_with_query_params_for_everything u r).query
          = get_everything_query_params r) := by
  constructor
  · intro u r
    simp [encode_top_headlines_eq]
  · intro u r
    simp [encode_everything_eq]

/-- C3: `GetTopHeadlinesRequestBuilder::build` fails with the
conflicting-filters error exactly when `sources` is set together with
`country` or with `category`; in every other combination it succeeds and
the built request carries precisely the fields that were set. -/
theorem c3_build_conflicting_filters (b : GetTopHeadlinesRequestBuilder) :
    ((b.sources.isSome && (b.country.isSome || b.category.isSome)) = true →
        b.build = Except.error "Cannot specify sources with country or category") ∧
    ((b.sources.isSome && (b.country.isSome || b.category.isSome)) = false →
        b.build = Except.ok
          { country := b.country, category := b.category, sources := b.sources,
            search_term := b.search_term, page_size := b.page_size, page := b.page }) := by
  constructor <;> intro h <;> simp [GetTopHeadlinesRequestBuilder.build, h]

/-- Witness for C3: sources together with country fails; country together
with category (no sources) succeeds with exactly the set fields. -/
theorem c3_build_conflicting_filters_witness :
    ((GetTopHeadlinesRequestBuilder.new.setSources "bbc-news").setCountry Country.US).build
      = Except.error "Cannot specify sources with country or category" ∧
    ((GetTopHeadlinesRequestBuilder.new.setCountry Country.US).setCategory
        NewsCategory.Business).build
      = Except.ok
          { country := some Country.US, category := some NewsCategory.Business,
            sources := none, search_term := "", page_size := 0, page := 0 } :=
  ⟨(c3_build_conflicting_filters _).1 (by decide),
   (c3_build_conflicting_filters _).2 (by decide)⟩

/-- Failing input for C4: a Headlines request whose pageSize = 101 lies
outside [1, 100]. -/
def c4_bad_headlines : GetTopHeadlinesRequest :=
  { country := none, category := none, sources := none,
    search_term := "", page_size := 101, page := 1 }

/-- Failing input for C4: an Everything request whose pageSize = 0 lies
outside [1, 100] (exactly what the no-setter builder produces). -/
def c4_bad_everything : GetEverythingRequest :=
  { search_term := "", search_in := [], sources := none, domains := none,
    exclude_domains := none, start_date := none, end_date := none,
    language := none, sort_by := none, page_size := 0, page := 1 }

/-- C4 refuted (code bug): a request with pageSize outside [1, 100] is NOT
rejected with ParameterInvalid before the network call.  The only
pre-network check, `top_headlines_validate_request`, accepts it, and for
both endpoints the attempt invokes the transport — with `pageSize=101` in
the query for Headlines, and with pageSize silently omitted for the
Everything request with pageSize = 0.  The `#[validate(range(1..100))]`
attributes on the request structs are never executed by any call path. -/
theorem c4_out_of_range_reaches_transport {ρ : Type}
    (transport : List (String × String) → Except ApiClientError ρ) :
    top_headlines_validate_request c4_bad_headlines = Except.ok () ∧
    get_top_headlines_attempt c4_bad_headlines transport
      = transport [("pageSize", "101")] ∧
    get_everything_attempt c4_bad_everything transport = transport [("q", "")] := by
  have h1 : get_top_headlines_query_params c4_bad_headlines = [("pageSize", "101")] := by
    decide
  have h2 : get_everything_query_params c4_bad_everything = [("q", "")] := by decide
  refine ⟨rfl, ?_, ?_⟩
  · show transport (get_top_headlines_query_params c4_bad_headlines) = _
    rw [h1]
  · show transport (get_everything_query_params c4_bad_everything) = _
    rw [h2]

/-- C5 counterexample: with no setter called, the TopHeadlines builder's
build yields pageSize = 0 and page = 0 — not the claimed 1 — and so does the
Everything builder.  Rust `#[derive(Default)]` zero-initializes the `i32`
fields; the serde deserialization defaults `default_page_size` and
`default_page` (both 1) are not consulted by the builders. -/
theorem c5_builder_defaults_counterexample :
    GetTopHeadlinesRequestBuilder.new.build
      = Except.ok
          { country := none, category := none, sources := none,
            search_term := "", page_size := 0, page := 0 } ∧
    decide (GetTopHeadlinesRequestBuilder.new.page_size = default_page_size) = false ∧
    decide (GetEverythingRequestBuilder.new.build.page_size = default_page_size) = false ∧
    decide (GetEverythingRequestBuilder.new.build.page = default_page) = false :=
  ⟨rfl, rfl, rfl, rfl⟩

/-- C5 as amended: with no setter called, each builder produces the Rust
`Default` field values — empty search term, no optional filters set, and
page = 0, pageSize = 0 (not page = 1, pageSize = 1 as claimed; those are the
serde deserialization defaults only). -/
theorem c5_builder_defaults_amended :
    GetTopHeadlinesRequestBuilder.new.build
      = Except.ok
          { country := none, category := none, sources := none,
            search_term := "", page_size := 0, page := 0 } ∧
    GetEverythingRequestBuilder.new.build
      = { search_term := "", search_in := [], sources := none, domains := none,
          exclude_domains := none, start_date := none, end_date := none,
          language := none, sort_by := none, page_size := 0, page := 0 } :=
  ⟨rfl, rfl⟩

/-- C7 counterexample: for the sub-millisecond base duration d = 500µs, the
delay before the first retry under `Linear(d)` is 0, not d × (0+1) = 500µs:
the code truncates d to whole milliseconds via `as_millis` before
multiplying. -/
theorem c7_backoff_counterexample :
    retry_delay (RetryStrategy.Linear ⟨500000⟩) 0 = Duration.mk 0 ∧
    decide (retry_delay (RetryStrategy.Linear ⟨500000⟩) 0
        = Duration.mk (500000 * (0 + 1))) = false := by
  decide

/-- C7 as amended: `Constant(d)` waits exactly d for every d, including
sub-millisecond durations; `Linear(d)` and `Exponential(d)` wait exactly
d × (n+1) resp. d × 2^n only when d is a whole number of milliseconds (the
code truncates d to milliseconds first) and the millisecond products stay
below 2^64 (u64 arithmetic) with n below 2^32 for the exponent cast. -/
theorem c7_backoff_delays (d : Duration) (n : Nat) :
    retry_delay (RetryStrategy.Constant d) n = d ∧
    (d.nanos % 1000000 = 0 → n + 1 < U64 → d.nanos / 1000000 * (n + 1) < U64 →
        retry_delay (RetryStrategy.Linear d) n = ⟨d.nanos * (n + 1)⟩) ∧
    (d.nanos % 1000000 = 0 → n < 2 ^ 32 → d.nanos / 1000000 * 2 ^ n < U64 →
        retry_delay (RetryStrategy.Exponential d) n = ⟨d.nanos * 2 ^ n⟩) := by
  refine ⟨rfl, ?_, ?_⟩
  · intro h1 h2 h3
    have hdvd : 1000000 ∣ d.nanos := Nat.dvd_of_mod_eq_zero h1
    have hm : d.nanos / 1000000 % U64 = d.nanos / 1000000 :=
      Nat.mod_eq_of_lt
        (lt_of_le_of_lt (Nat.le_mul_of_pos_right _ (Nat.succ_pos n)) h3)
    have hn : (n + 1) % U64 = n + 1 := Nat.mod_eq_of_lt h2
    simp only [retry_delay, Duration.fromMillis, Duration.asMillis, hm, hn,
      Nat.mod_eq_of_lt h3]
    congr 1
    have hsw : d.nanos / 1000000 * (n + 1) * 1000000
        = d.nanos / 1000000 * 1000000 * (n + 1) := by ring
    rw [hsw, Nat.div_mul_cancel hdvd]
  · intro h1 h2 h3
    have hdvd : 1000000 ∣ d.nanos := Nat.dvd_of_mod_eq_zero h1
    have hn : n % 2 ^ 32 = n := Nat.mod_eq_of_lt h2
    rcases Nat.eq_zero_or_pos (d.nanos / 1000000) with hz | hpos
    · have hnanos : d.nanos = 0 := by
        have hc := Nat.div_mul_cancel hdvd
        omega
      simp [retry_delay, Duration.fromMillis, Duration.asMillis, hz, hnanos, hn]
    · have hpow : 2 ^ n < U64 :=
        lt_of_le_of_lt (Nat.le_mul_of_pos_left _ hpos) h3
      have hpw : 2 ^ n % U64 = 2 ^ n := Nat.mod_eq_of_lt hpow
      have hm : d.nanos / 1000000 % U64 = d.nanos / 1000000 :=
        Nat.mod_eq_of_lt
          (lt_of_le_of_lt
            (Nat.le_mul_of_pos_right _ (pow_pos (by norm_num) n)) h3)
      simp only [retry_delay, Duration.fromMillis, Duration.asMillis, hn, hpw, hm,
        Nat.mod_eq_of_lt h3]
      congr 1
      have hsw : d.nanos / 1000000 * 2 ^ n * 1000000
          = d.nanos / 1000000 * 1000000 * 2 ^ n := by ring
      rw [hsw, Nat.div_mul_cancel hdvd]

/-- Witness for C7 (amended) at d = 2ms: Constant waits 2ms at every index,
Linear waits 2ms × 2 before retry 1, Exponential waits 2ms × 8 before
retry 3. -/
theorem c7_backoff_delays_witness :
    retry_delay (RetryStrategy.Constant ⟨2000000⟩) 5 = ⟨2000000⟩ ∧
    retry_delay (RetryStrategy.Linear ⟨2000000⟩) 1 = ⟨2000000 * (1 + 1)⟩ ∧
    retry_delay (RetryStrategy.Exponential ⟨2000000⟩) 3 = ⟨2000000 * 2 ^ 3⟩ :=
  ⟨(c7_backoff_delays ⟨2000000⟩ 5).1,
   (c7_backoff_delays ⟨2000000⟩ 1).2.1 (by decide) (by decide) (by decide),
   (c7_backoff_delays ⟨2000000⟩ 3).2.2 (by decide) (by decide) (by decide)⟩

end NewsapiRs
